import Mathlib

/-!
# Shallow embedding of `lsst.display.ginga` (file `python/lsst/display/ginga/ginga.py`)

The module is a thin adapter between the LSST `afw.display` interface and the
ginga web viewer.  We embed the process-wide server lifecycle
(`initGinga`, `DisplayImpl.__init__` lines 95-97, `DisplayImpl.shutdown_server`),
the per-instance viewer/canvas state and the drawing, scaling and coordinate
operations, as pure Lean functions over explicit state records.

Conventions of the embedding:
* Python numbers (pixel coordinates, sizes, angles) are modelled as `ℚ`;
  the only arithmetic the module performs on them is subtraction of the
  literal `1` and tupling, so no floating-point rounding is modelled.
* Exceptions are modelled explicitly.  An operation that can raise after
  having already mutated state returns `State × Option PyError`, keeping the
  mutations performed before the raise; an operation that can only raise
  before any mutation returns `Except PyError _`.
* Calls into the external libraries (`ginga`, `lsst.afw`) that this repository
  does not contain are abstracted: `ds9Regions.dot`, `math.degrees` and Python
  `float()` string parsing are fields of an `Externals` record, and an LSST
  `Wcs` object is a record of its two conversion functions.
-/

set_option autoImplicit false
set_option linter.unusedVariables false

namespace DisplayGinga

/-- A Python exception, by kind.  `runtimeError` keeps the message string the
source passes to `RuntimeError(...)`. -/
inductive PyError where
  | nameError
  | indexError
  | typeError
  | valueError
  | runtimeError (msg : String)
deriving DecidableEq

/-! ## Server lifecycle (module globals and the `DisplayImpl.server` class attribute) -/

/-- A ginga web server handle, as produced by `ipg.make_server`: we record an
identity (creation index) and whether `start`/`stop` has been called on it. -/
structure ServerHandle where
  sid : Nat
  running : Bool
deriving DecidableEq

/-- `server.start(no_ioloop=...)`. -/
def ServerHandle.start (s : ServerHandle) : ServerHandle :=
  { s with running := true }

/-- `server.stop()`. -/
def ServerHandle.stop (s : ServerHandle) : ServerHandle :=
  { s with running := false }

/-- The process-wide state the module manipulates.

`globalServer` is the module-level name `server` used by `initGinga`:
`none` means the name is *unbound* (a read raises `NameError`),
`some v` means it is bound to `v` (where `v = none` models Python `None`).
The module body only binds it inside `if False:` (lines 57-61), so it starts
unbound.  `classServer` is the `DisplayImpl.server` class attribute
(line 84, initially `None`).  `nextId` and `created` form a ledger of every
server `ipg.make_server` ever produced, newest id first, and `stopped`
records the ids on which `stop()` was called. -/
structure ProcState where
  globalServer : Option (Option ServerHandle)
  classServer : Option ServerHandle
  nextId : Nat
  created : List Nat
  stopped : List Nat
deriving DecidableEq

/-- The state of a fresh Python process right after importing the module:
the `if False:` guard (line 57) means the global `server` is never bound,
and `DisplayImpl.server = None` (line 84). -/
def initProcState : ProcState :=
  { globalServer := none, classServer := none, nextId := 0, created := [], stopped := [] }

/-- `ipg.make_server(host=..., port=..., use_opencv=...)`: produces a fresh,
not-yet-started server and records it in the ledger. -/
def makeServer (st : ProcState) : ServerHandle × ProcState :=
  (⟨st.nextId, false⟩,
   { st with nextId := st.nextId + 1, created := st.nextId :: st.created })

/-- `initGinga(host, port, use_opencv, no_ioloop)` (lines 63-74):

```
global server
if not server:
    server = ipg.make_server(host=host, port=port, use_opencv=use_opencv)
    server.start(no_ioloop=no_ioloop)
```

Reading the unbound global `server` raises `NameError`; since the raise
happens before any assignment, the state is unchanged (modelled by
returning `Except.error`). -/
def initGinga (st : ProcState) : Except PyError ProcState :=
  match st.globalServer with
  | none => .error .nameError
  | some v =>
    if v.isSome then
      .ok st
    else
      let (srv, st') := makeServer st
      .ok { st' with globalServer := some (some srv.start) }

/-- The server-singleton part of `DisplayImpl.__init__` (lines 95-97):

```
if not DisplayImpl.server:
    DisplayImpl.server = ipg.make_server(host=host, port=port, use_opencv=use_opencv)
    DisplayImpl.server.start(no_ioloop=no_ioloop)
``` -/
def initServerPart (st : ProcState) : ProcState :=
  match st.classServer with
  | some _ => st
  | none =>
    let (srv, st') := makeServer st
    { st' with classServer := some srv.start }

/-- `DisplayImpl.shutdown_server` (lines 126-131):

```
if DisplayImpl.server:
    DisplayImpl.server.stop()
    DisplayImpl.server = None
``` -/
def shutdown_server (st : ProcState) : ProcState :=
  match st.classServer with
  | none => st
  | some s => { st with classServer := none, stopped := s.stop.sid :: st.stopped }

/-- Ledger sanity: every created id is below `nextId`.  Holds initially and is
preserved by every operation, so a newly made server is always fresh. -/
def idsBelow (st : ProcState) : Prop :=
  ∀ i ∈ st.created, i < st.nextId

/-! ## The WCS adaptor (`WcsAdaptorForGinga`, lines 285-303) -/

/-- An `lsst.afw.geom.Angle`: we only ever observe it through `asDegrees`. -/
structure Angle where
  asDegrees : ℚ
deriving DecidableEq

/-- An LSST `Wcs` object, abstracted to the two conversions the adaptor uses.
`pixelToSky` receives the Python `*idxs` argument tuple as a list. -/
structure Wcs where
  pixelToSky : List ℚ → Angle × Angle
  skyToPixel : Angle × Angle → ℚ × ℚ

/-- `WcsAdaptorForGinga.__init__` stores the wrapped WCS in `self._wcs`
(line 288); the adaptor has no other state. -/
structure WcsAdaptorForGinga where
  _wcs : Wcs

/-- `pixtoradec(self, idxs, coords='data')` (lines 290-294):
`ra, dec = self._wcs.pixelToSky(*idxs); return ra.asDegrees(), dec.asDegrees()`. -/
def WcsAdaptorForGinga.pixtoradec (a : WcsAdaptorForGinga) (idxs : List ℚ)
    (coords : String) : ℚ × ℚ :=
  let rd := a._wcs.pixelToSky idxs
  (rd.1.asDegrees, rd.2.asDegrees)

/-- `pixtosystem(self, idxs, system=None, coords='data')` (lines 296-298):
`return self.pixtoradec(idxs, coords=coords)`. -/
def WcsAdaptorForGinga.pixtosystem (a : WcsAdaptorForGinga) (idxs : List ℚ)
    (system : Option String) (coords : String) : ℚ × ℚ :=
  a.pixtoradec idxs coords

/-- `radectopix(self, ra_deg, dec_deg, coords='data', naxispath=None)`
(lines 300-303): the body is
`return wcs.skyToPixel(ra_deg*afwGeom.degrees, dec_deg*afwGeom.degrees)`,
but `wcs` is a free name — there is no module-level, enclosing or builtin
binding for it (the parameter is `self`, the attribute is `self._wcs`), so
evaluating the body raises `NameError` before any conversion happens. -/
def WcsAdaptorForGinga.radectopix (a : WcsAdaptorForGinga) (ra_deg dec_deg : ℚ)
    (coords : String) (naxispath : Option (List ℚ)) : Except PyError (ℚ × ℚ) :=
  .error .nameError

/-! ## Per-instance display state and the drawing operations -/

/-- A drawing primitive added to the instance's canvas via
`self._canvas.add(...)`.  `line` keeps the positional coordinate list it was
built from (`Line(*coords, color=ctype)`), matching both `_dot`'s region
branch and `_drawLines`. -/
inductive Primitive where
  | line (coords : List ℚ) (color : String)
  | text (x y : ℚ) (label : String) (color : String)
  | circle (x y radius : ℚ) (color : String)
  | ellipse (x y xradius yradius rot_deg : ℚ) (color : String)
deriving DecidableEq

/-- The viewer settings object; the module only ever sets
`html5_canvas_format` (line 108). -/
structure Settings where
  html5_canvas_format : Option String
deriving DecidableEq

/-- A 2-d pixel array, `image.getArray()`. -/
abbrev ImgArray := List (List ℚ)

/-- The afw image handed to `_mtv`. -/
structure Image where
  getArray : ImgArray
deriving DecidableEq

/-- The afw mask handed to `_mtv`; its content is never inspected. -/
structure Mask where
  mid : Nat
deriving DecidableEq

/-- `ginga.AstroImage.AstroImage(logger=..., data_np=...)`, possibly carrying
a `WcsAdaptorForGinga` via `set_wcs` (lines 170-173). -/
structure AstroImage where
  data_np : ImgArray
  wcs : Option WcsAdaptorForGinga

/-- The cut/autocut configuration `_scale` leaves on the viewer. -/
inductive CutSetting where
  | autocutZscale (contrast : ℚ)
  | autocutMinmax
  | levels (lo hi : ℚ)

/-- The state a `DisplayImpl` instance owns or reaches through its viewer:
the number of canvases `add_canvas` has put on the per-frame viewer, the
objects on this instance's own canvas, the viewer settings, the image set by
`set_image`, everything the scale/zoom/pan calls store, and the log of
warnings printed.  -/
structure DisplayState where
  canvasCount : Nat
  objects : List Primitive
  settings : Settings
  image : Option AstroImage
  colorMap : Option String
  colorAlgorithm : Option String
  cut : Option CutSetting
  scalexy : Option (ℚ × ℚ)
  pan : Option (ℚ × ℚ)
  warnings : List String

/-- The external functions the drawing path calls into:
`ds9Regions.dot` (from `lsst.afw.display.ds9Regions`, not part of this
repository) producing region-description strings, Python's `math.degrees`,
and Python `float()` string parsing (abstracted total; parse failures are
outside the claims). -/
structure Externals where
  dotRegions : String → ℚ → ℚ → ℚ → String → Option ℚ → List String
  degrees : ℚ → ℚ
  parseFloat : String → ℚ

/-- `canvas_types = ('jpeg', 'png',)` (line 105). -/
def canvas_types : List String := ["jpeg", "png"]

/-- The per-instance part of `DisplayImpl.__init__` (lines 99-117): a fresh
canvas is added to the per-frame viewer (`self._canvas =
self.display.add_canvas()`), then the canvas format is installed when legal
and otherwise a warning is printed.  `viewer0` is the per-frame viewer's
state before construction (its canvas count, settings and image survive);
the instance's own canvas starts empty. -/
def init_display (viewer0 : DisplayState) (canvas_format : String) : DisplayState :=
  let st := { viewer0 with canvasCount := viewer0.canvasCount + 1, objects := [] }
  if canvas_format ∈ canvas_types then
    { st with settings := { html5_canvas_format := some canvas_format } }
  else
    { st with warnings := st.warnings ++
        ["Unknown format \"" ++ canvas_format ++ "\" (allowed: \"" ++
         String.intercalate "\", \"" canvas_types ++ "\")"] }

/-- `DisplayImpl._erase` (lines 188-190): `self._canvas.delete_all_objects()`.
The canvas itself stays. -/
def _erase (st : DisplayState) : DisplayState :=
  { st with objects := [] }

/-- `DisplayImpl._setMaskTransparency(self, transparency, maskplane)`
(lines 145-150).  When `maskplane != None` the source evaluates
`"ginga is unable to set transparency for individual maskplanes" % maskplane`:
the format string contains no conversion specifier, so the `%` operator on a
string (or int) operand raises
`TypeError: not all arguments converted during string formatting` before
anything is printed.  When `maskplane` is `None` the body does nothing. -/
def _setMaskTransparency (st : DisplayState) (transparency : ℚ)
    (maskplane : Option String) : DisplayState × Option PyError :=
  match maskplane with
  | some _ => (st, some .typeError)
  | none => (st, none)

/-- `DisplayImpl._getMaskTransparency` (lines 152-153): empty body. -/
def _getMaskTransparency (st : DisplayState) (maskplane : Option String) :
    DisplayState :=
  st

/-- `DisplayImpl._mtv(self, image, mask=None, wcs=None, title="")`
(lines 155-178): erase first, then if an image is given build an
`AstroImage` (attaching a `WcsAdaptorForGinga` when a wcs is given) and
`set_image` it; if a mask is given print the unsupported-warning. -/
def _mtv (st : DisplayState) (image : Option Image) (mask : Option Mask)
    (wcs : Option Wcs) (title : String) : DisplayState :=
  let st := _erase st
  let st :=
    match image with
    | some img =>
      { st with image := some { data_np := img.getArray, wcs := wcs.map .mk } }
    | none => st
  match mask with
  | some _ =>
    { st with warnings := st.warnings ++ ["Mask displays are not yet supported in Ginga"] }
  | none => st

/-- `DisplayImpl._buffer` (lines 182-183): `pass`. -/
def _buffer (st : DisplayState) (enable : Bool) : DisplayState := st

/-- `DisplayImpl._flush` (lines 185-186): `pass`. -/
def _flush (st : DisplayState) : DisplayState := st

/-- `DisplayImpl._close` (lines 141-143): `pass`. -/
def _close (st : DisplayState) : DisplayState := st

/-- The symbol argument of `_dot`: either an object derived from
`afwGeom.ellipses.BaseCore` (observed through `getA`, `getB`, `getTheta`)
or a plain string. -/
inductive Symb where
  | ellipse (getA getB getTheta : ℚ)
  | str (s : String)
deriving DecidableEq

/-- Split a character list at every occurrence of `sep`, keeping empty
fields, like Python `str.split(sep)`. -/
def splitChars (sep : Char) : List Char → List Char → List (List Char)
  | acc, [] => [acc.reverse]
  | acc, c :: cs =>
    if c = sep then acc.reverse :: splitChars sep [] cs
    else splitChars sep (c :: acc) cs

/-- Python `str.split(sep)` on a one-character separator. -/
def pySplit (sep : Char) (s : String) : List String :=
  (splitChars sep [] s.toList).map String.mk

/-- The words of the part of a region command before any `#` comment:
`tmp = ds9Cmd.split('#'); cmd = tmp.pop(0).split()` (lines 220-221).
Python whitespace-`split()` drops empty fields (separators here are
spaces). -/
def cmdWords (ds9Cmd : String) : List String :=
  (pySplit ' ' ((pySplit '#' ds9Cmd).headD "")).filter (fun w => w ≠ "")

/-- Processing of one region command inside `_dot`'s loop (lines 219-231):
`cmd, args = cmd[0], cmd[1:]` (IndexError on an all-blank command), then
`line` builds `Line(*[float(p) - 1 for p in args], color=ctype)`,
`text` builds `Text(x, y, symb, color=ctype)` from
`x, y = [float(p) - 1 for p in args[0:2]]` (ValueError when fewer than two
values unpack), and anything else raises `RuntimeError(ds9Cmd)`. -/
def processDs9Cmd (parse : String → ℚ) (symb ctype : String)
    (ds9Cmd : String) : Except PyError Primitive :=
  match cmdWords ds9Cmd with
  | [] => .error .indexError
  | cmd :: args =>
    if cmd = "line" then
      .ok (.line (args.map (fun p => parse p - 1)) ctype)
    else if cmd = "text" then
      match args with
      | x :: y :: _ => .ok (.text (parse x - 1) (parse y - 1) symb ctype)
      | _ => .error .valueError
    else
      .error (.runtimeError ds9Cmd)

/-- The `for ds9Cmd in ds9Regions.dot(...)` loop: primitives are added one by
one, so the ones processed before a raise stay added; the first failing
command aborts the loop with its exception. -/
def processRegionCmds (parse : String → ℚ) (symb ctype : String) :
    List String → List Primitive × Option PyError
  | [] => ([], none)
  | c :: cs =>
    match processDs9Cmd parse symb ctype c with
    | .error e => ([], some e)
    | .ok p =>
      let rest := processRegionCmds parse symb ctype cs
      (p :: rest.1, rest.2)

/-- `DisplayImpl._dot(self, symb, c, r, size, ctype, fontFamily="helvetica",
textAngle=None)` (lines 192-231): a `BaseCore` symbol becomes an ellipse, the
string `'o'` a circle of the given size, and any other string goes through
`ds9Regions.dot` — which the source always calls with
`fontFamily="helvetica", textAngle=None`, ignoring the parameters. -/
def _dot (ext : Externals) (st : DisplayState) (symb : Symb) (c r size : ℚ)
    (ctype : String) (fontFamily : String) (textAngle : Option ℚ) :
    DisplayState × Option PyError :=
  match symb with
  | .ellipse a b theta =>
    ({ st with objects := st.objects ++ [.ellipse c r a b (ext.degrees theta) ctype] },
     none)
  | .str s =>
    if s = "o" then
      ({ st with objects := st.objects ++ [.circle c r size ctype] }, none)
    else
      let res := processRegionCmds ext.parseFloat s ctype
        (ext.dotRegions s c r size "helvetica" none)
      ({ st with objects := st.objects ++ res.1 }, res.2)

/-- The line segments `_drawLines`'s loop adds: one from `p0` to each
successive point. -/
def drawLineSegs (ctype : String) : ℚ × ℚ → List (ℚ × ℚ) → List Primitive
  | _, [] => []
  | p0, p :: ps =>
    .line [p0.1, p0.2, p.1, p.2] ctype :: drawLineSegs ctype p ps

/-- `DisplayImpl._drawLines(self, points, ctype)` (lines 233-241):
`p0 = points[0]` raises IndexError on an empty list; otherwise each later
point is joined to its predecessor. -/
def _drawLines (st : DisplayState) (points : List (ℚ × ℚ)) (ctype : String) :
    DisplayState × Option PyError :=
  match points with
  | [] => (st, some .indexError)
  | p0 :: rest =>
    ({ st with objects := st.objects ++ drawLineSegs ctype p0 rest }, none)

/-- The `min` argument of `_scale`: the strings `"zscale"`/`"minmax"` select
autocut modes, anything else is a numeric cut level. -/
inductive ScaleMin where
  | zscale
  | minmax
  | value (q : ℚ)

/-- `DisplayImpl._scale(self, algorithm, min, max, unit, ...)`
(lines 245-259). -/
def _scale (st : DisplayState) (algorithm : String) (min : ScaleMin) (max : ℚ)
    (unit : Option String) : DisplayState :=
  let st := { st with colorMap := some "gray", colorAlgorithm := some algorithm }
  match min with
  | .zscale => { st with cut := some (.autocutZscale (1/4)) }
  | .minmax => { st with cut := some .autocutMinmax }
  | .value lo =>
    let st :=
      match unit with
      | some u =>
        { st with warnings := st.warnings ++ ["ginga: ignoring scale unit " ++ u] }
      | none => st
    { st with cut := some (.levels lo max) }

/-- `DisplayImpl._zoom(self, zoomfac)` (lines 263-266):
`self.display.scale_to(zoomfac, zoomfac)`. -/
def _zoom (st : DisplayState) (zoomfac : ℚ) : DisplayState :=
  { st with scalexy := some (zoomfac, zoomfac) }

/-- `DisplayImpl._pan(self, colc, rowc)` (lines 268-271):
`self.display.set_pan(colc, rowc)`. -/
def _pan (st : DisplayState) (colc rowc : ℚ) : DisplayState :=
  { st with pan := some (colc, rowc) }

/-! ## Concrete states used to exercise the theorems -/

/-- A display state with an empty canvas and untouched viewer settings. -/
def display0 : DisplayState :=
  { canvasCount := 1, objects := [], settings := { html5_canvas_format := none },
    image := none, colorMap := none, colorAlgorithm := none, cut := none,
    scalexy := none, pan := none, warnings := [] }

/-- A process state in which one server (id 0) has been created and started
and is held by `DisplayImpl.server`. -/
def procState1 : ProcState :=
  { globalServer := none, classServer := some ⟨0, true⟩, nextId := 1,
    created := [0], stopped := [] }

/-! ## Helper lemmas -/

/-- `_drawLines`'s loop draws exactly the segments between consecutive
points. -/
theorem drawLineSegs_eq_zip (ctype : String) (p0 : ℚ × ℚ) (ps : List (ℚ × ℚ)) :
    drawLineSegs ctype p0 ps =
      ((p0 :: ps).zip ps).map
        (fun pq => .line [pq.1.1, pq.1.2, pq.2.1, pq.2.2] ctype) := by
  induction ps generalizing p0 with
  | nil => rfl
  | cons q qs ih => simp [drawLineSegs, ih]

/-! ## Claims -/

/-- C1: the claim says every `DisplayImpl` construction and every `initGinga`
call share one lazily created process-wide server.  In the code, `initGinga`
uses the module global `server`, whose only initialisation sits under
`if False:`; reading the unbound name raises `NameError`, and no operation of
the module ever binds it, so `initGinga` can never create, start or reuse a
server. -/
theorem initGinga_raises_nameError (st : ProcState)
    (h : st.globalServer = none) :
    initGinga st = .error .nameError ∧
    (initServerPart st).globalServer = none ∧
    (shutdown_server st).globalServer = none := by
  refine ⟨by simp [initGinga, h], ?_, ?_⟩
  · cases hc : st.classServer <;> simp [initServerPart, makeServer, hc, h]
  · cases hc : st.classServer <;> simp [shutdown_server, hc, h]

/-- Witness for C1: in the state reached by importing the module, calling
`initGinga` raises `NameError`. -/
theorem initGinga_raises_nameError_witness :
    initProcState.globalServer = none ∧
    initGinga initProcState = .error .nameError :=
  ⟨rfl, (initGinga_raises_nameError initProcState rfl).1⟩

/-- C2: the claim says `radectopix` applies the wrapped WCS's sky-to-pixel
conversion without raising.  The body references the undefined free name
`wcs` (instead of `self._wcs`), so every call raises `NameError` and the
wrapped conversion is never reached. -/
theorem radectopix_raises_nameError (a : WcsAdaptorForGinga)
    (ra_deg dec_deg : ℚ) (coords : String) (naxispath : Option (List ℚ)) :
    a.radectopix ra_deg dec_deg coords naxispath = .error .nameError := rfl

/-- C3: the claim says the unsupported requests only print a warning and
never raise.  `_setMaskTransparency` with a non-`None` maskplane instead
raises `TypeError`: the message it tries to print is built with `%` on a
format string that has no conversion specifier.  (The other two unsupported
requests — `_mtv` with a mask, and an unknown `canvas_format` — do just
append a warning, see `_mtv` and `init_display`.) -/
theorem setMaskTransparency_raises_typeError (st : DisplayState) (t : ℚ)
    (p : String) :
    _setMaskTransparency st t (some p) = (st, some .typeError) := rfl

/-- C4: in `_dot`'s region branch, a `line` command yields a line primitive
whose every coordinate is the parsed argument minus 1, a `text` command
yields a text primitive whose two coordinates are the first two parsed
arguments minus 1, and any other command name raises
`RuntimeError(ds9Cmd)`. -/
theorem dot_region_coordinate_shift (parse : String → ℚ)
    (symb ctype ds9Cmd : String) :
    (∀ args, cmdWords ds9Cmd = "line" :: args →
        processDs9Cmd parse symb ctype ds9Cmd =
          .ok (.line (args.map (fun p => parse p - 1)) ctype)) ∧
    (∀ x y rest, cmdWords ds9Cmd = "text" :: x :: y :: rest →
        processDs9Cmd parse symb ctype ds9Cmd =
          .ok (.text (parse x - 1) (parse y - 1) symb ctype)) ∧
    (∀ cmd args, cmdWords ds9Cmd = cmd :: args → cmd ≠ "line" →
        cmd ≠ "text" →
        processDs9Cmd parse symb ctype ds9Cmd =
          .error (.runtimeError ds9Cmd)) := by
  refine ⟨?_, ?_, ?_⟩
  · intro args h
    simp [processDs9Cmd, h]
  · intro x y rest h
    simp [processDs9Cmd, h]
  · intro cmd args h h1 h2
    simp [processDs9Cmd, h, h1, h2]

/-- Witness for C4: the command `line 10 20 30 40`, with a parser sending
every numeral to 1, produces the line with all coordinates shifted to 0. -/
theorem dot_region_coordinate_shift_witness :
    processDs9Cmd (fun p => 1) "+" "red" "line 10 20 30 40" =
      .ok (.line [0, 0, 0, 0] "red") := by
  have h := (dot_region_coordinate_shift (fun p => 1) "+" "red"
      "line 10 20 30 40").1 ["10", "20", "30", "40"] (by decide)
  simpa using h

/-- C5: `pixtosystem` forwards to `pixtoradec` for every `system` and
`coords` argument, and the adaptor carries no state beyond the wrapped WCS
reference (rebuilding it from `_wcs` gives the adaptor back, and the pure
methods cannot modify it). -/
theorem pixtosystem_eq_pixtoradec (a : WcsAdaptorForGinga) (idxs : List ℚ)
    (system : Option String) (coords : String) :
    a.pixtosystem idxs system coords = a.pixtoradec idxs coords ∧
    WcsAdaptorForGinga.mk a._wcs = a :=
  ⟨rfl, rfl⟩

/-- C6: the first `shutdown_server` on a state holding a server stops it and
clears `DisplayImpl.server`; on a cleared state it is a no-op, hence
idempotent; the next construction then creates and starts a fresh server
(fresh because every created id stays below `nextId`, an invariant that
holds initially and is preserved). -/
theorem shutdown_server_spec :
    (∀ st s, st.classServer = some s →
        shutdown_server st =
          { st with classServer := none, stopped := s.sid :: st.stopped }) ∧
    (∀ st, st.classServer = none → shutdown_server st = st) ∧
    (∀ st, shutdown_server (shutdown_server st) = shutdown_server st) ∧
    (∀ st, (initServerPart (shutdown_server st)).classServer =
        some ⟨(shutdown_server st).nextId, true⟩) ∧
    (∀ st, idsBelow st →
        st.nextId ∉ st.created ∧ idsBelow (initServerPart st) ∧
          idsBelow (shutdown_server st)) ∧
    idsBelow initProcState := by
  refine ⟨?_, ?_, ?_, ?_, ?_, ?_⟩
  · intro st s h
    simp [shutdown_server, h, ServerHandle.stop]
  · intro st h
    simp [shutdown_server, h]
  · intro st
    cases h : st.classServer <;> simp [shutdown_server, h]
  · intro st
    cases h : st.classServer <;>
      simp [shutdown_server, initServerPart, makeServer, ServerHandle.start, h]
  · intro st h
    refine ⟨fun hm => absurd (h _ hm) (lt_irrefl _), ?_, ?_⟩
    · cases hc : st.classServer with
      | some s => simpa [initServerPart, hc] using h
      | none =>
        intro i hi
        simp [initServerPart, makeServer, hc] at hi ⊢
        rcases hi with hi | hi
        · omega
        · exact Nat.lt_succ_of_lt (h _ hi)
    · cases hc : st.classServer <;>
        simpa [shutdown_server, idsBelow, hc] using h
  · intro i hi
    simp [initProcState] at hi

/-- Witness for C6: shutting down the running server of `procState1` clears
the handle and records the stop; reconstructing afterwards creates and
starts the fresh server with id 1, which is not among the previously
created ids. -/
theorem shutdown_server_spec_witness :
    shutdown_server procState1 =
      { procState1 with classServer := none, stopped := [0] } ∧
    (initServerPart (shutdown_server procState1)).classServer =
      some ⟨1, true⟩ ∧
    procState1.nextId ∉ procState1.created := by
  refine ⟨shutdown_server_spec.1 procState1 ⟨0, true⟩ rfl, ?_, ?_⟩
  · have h := shutdown_server_spec.2.2.2.1 procState1
    simpa [shutdown_server, procState1] using h
  · exact (shutdown_server_spec.2.2.2.2.1 procState1
      (by intro i hi; simp [procState1] at hi ⊢; omega)).1

/-- C7: construction adds exactly one canvas to the per-frame viewer, with
the instance's canvas starting empty, and no later operation changes the
canvas count — in particular `_erase` deletes the objects on the canvas, not
the canvas itself. -/
theorem one_canvas_per_instance :
    (∀ v fmt, (init_display v fmt).canvasCount = v.canvasCount + 1 ∧
        (init_display v fmt).objects = []) ∧
    (∀ st, (_erase st).canvasCount = st.canvasCount ∧
        (_erase st).objects = []) ∧
    (∀ st img mask w t, (_mtv st img mask w t).canvasCount = st.canvasCount) ∧
    (∀ ext st symb c r size ctype ff ta,
        (_dot ext st symb c r size ctype ff ta).1.canvasCount =
          st.canvasCount) ∧
    (∀ st pts ctype,
        (_drawLines st pts ctype).1.canvasCount = st.canvasCount) ∧
    (∀ st t p,
        (_setMaskTransparency st t p).1.canvasCount = st.canvasCount) ∧
    (∀ st p, (_getMaskTransparency st p).canvasCount = st.canvasCount) ∧
    (∀ st a mn mx u, (_scale st a mn mx u).canvasCount = st.canvasCount) ∧
    (∀ st z, (_zoom st z).canvasCount = st.canvasCount) ∧
    (∀ st c r, (_pan st c r).canvasCount = st.canvasCount) ∧
    (∀ st e, (_buffer st e).canvasCount = st.canvasCount) ∧
    (∀ st, (_flush st).canvasCount = st.canvasCount) ∧
    (∀ st, (_close st).canvasCount = st.canvasCount) := by
  refine ⟨?_, ?_, ?_, ?_, ?_, ?_, ?_, ?_, ?_, ?_, ?_, ?_, ?_⟩
  · intro v fmt
    by_cases h : fmt ∈ canvas_types <;> simp [init_display, h]
  · intro st
    exact ⟨rfl, rfl⟩
  · intro st img mask w t
    cases img <;> cases mask <;> simp [_mtv, _erase]
  · intro ext st symb c r size ctype ff ta
    cases symb with
    | ellipse a b th => rfl
    | str s => by_cases hs : s = "o" <;> simp [_dot, hs]
  · intro st pts ctype
    cases pts <;> rfl
  · intro st t p
    cases p <;> rfl
  · intro st p
    rfl
  · intro st a mn mx u
    cases mn <;> cases u <;> rfl
  · intro st z
    rfl
  · intro st c r
    rfl
  · intro st e
    rfl
  · intro st
    rfl
  · intro st
    rfl

/-- C8: `_mtv` erases the canvas before anything else — the objects
previously on the canvas never influence its result — and with neither image
nor mask it is exactly an erase: the canvas empties and the viewer's image
is left as it was. -/
theorem mtv_erases_first (st : DisplayState) (image : Option Image)
    (mask : Option Mask) (wcs : Option Wcs) (title : String) :
    _mtv st image mask wcs title =
      _mtv { st with objects := [] } image mask wcs title ∧
    _mtv st none none wcs title = { st with objects := [] } :=
  ⟨by cases image <;> cases mask <;> rfl, rfl⟩

/-- C9: on a list of `n ≥ 1` points `_drawLines` succeeds and adds exactly
the `n - 1` segments joining consecutive points in order; on the empty list
it fails with an IndexError (from `points[0]`) and adds nothing. -/
theorem drawLines_spec (st : DisplayState) (points : List (ℚ × ℚ))
    (ctype : String) :
    (points = [] → _drawLines st points ctype = (st, some .indexError)) ∧
    (points ≠ [] →
      (_drawLines st points ctype).2 = none ∧
      (_drawLines st points ctype).1.objects =
        st.objects ++ (points.zip points.tail).map
          (fun pq => .line [pq.1.1, pq.1.2, pq.2.1, pq.2.2] ctype) ∧
      (points.zip points.tail).length = points.length - 1) := by
  constructor
  · intro h
    subst h
    rfl
  · intro h
    match points with
    | [] => exact absurd rfl h
    | p0 :: rest =>
      refine ⟨rfl, ?_, ?_⟩
      · simp [_drawLines, drawLineSegs_eq_zip]
      · simp [List.length_zip]

/-- Witness for C9: three points yield two segments in order; the empty list
yields an IndexError with the state unchanged. -/
theorem drawLines_spec_witness :
    (_drawLines display0 [(0, 0), (2, 3), (5, 1)] "red").2 = none ∧
    (_drawLines display0 [(0, 0), (2, 3), (5, 1)] "red").1.objects =
      [Primitive.line [0, 0, 2, 3] "red", Primitive.line [2, 3, 5, 1] "red"] ∧
    _drawLines display0 [] "red" = (display0, some .indexError) := by
  have h := (drawLines_spec display0 [(0, 0), (2, 3), (5, 1)] "red").2
    (by simp)
  have h0 := (drawLines_spec display0 [] "red").1 rfl
  exact ⟨h.1, by simpa [display0] using h.2.1, h0⟩

/-- C10: the `fontFamily` and `textAngle` arguments of `_dot` never
influence the result — the region generator is always invoked with
`fontFamily="helvetica"` and `textAngle=None` — so two calls differing only
in them produce identical canvas additions and identical outcomes. -/
theorem dot_ignores_font_and_angle (ext : Externals) (st : DisplayState)
    (symb : Symb) (c r size : ℚ) (ctype : String) (ff1 ff2 : String)
    (ta1 ta2 : Option ℚ) :
    _dot ext st symb c r size ctype ff1 ta1 =
      _dot ext st symb c r size ctype ff2 ta2 := by
  cases symb <;> rfl

end DisplayGinga
